import Mathlib

/-!
Verification of the TNest_GUI repository (TempoNest simulator and JSON
configuration builder) against its natural-language specification.

The development shallowly embeds the two pipelines:

* `src/ResSim/TempoNest_SIM.py` — the residual simulator
  (`ResidualSimulator.simulate_residuals_freq`, `combine_residuals`,
  `inject_dm_noise_on_combined`, `simulate_residuals`) and the export
  block of the "Run Simulation" action;
* `src/TempoNest_JSON.py` and `src/JSON/TempoNest_JSON.py` — the two
  configuration-builder entry points.

Floating-point values are modelled as rationals (`ℚ`), numpy arrays and
pandas data frames as Lean lists, and the randomness drawn inside the
simulator as oracle functions supplied as explicit arguments, so that
every theorem holds for every realization of the random draws.  The
external pulsar-timing library (libstempo) is out of scope of the
repository and is modelled from the spec as a black box (see the doc
comments on `fakepulsar`, `add_rednoise`, `add_dm`, `add_efac`).
-/

/-- One record of a time-of-arrival series: the four columns
`Date`, `Residual`, `Uncertainty`, `Frequency` of the pandas data frame
built in `simulate_residuals_freq`. -/
structure Row where
  Date : ℚ
  Residual : ℚ
  Uncertainty : ℚ
  Frequency : ℚ
deriving DecidableEq, Repr

/-- The sort key used by `combine_residuals`:
`sort_values(by=['Date', 'Frequency'])`, i.e. non-decreasing
lexicographic order on (epoch, frequency). -/
def rowLE (a b : Row) : Prop :=
  a.Date < b.Date ∨ (a.Date = b.Date ∧ a.Frequency ≤ b.Frequency)

instance : DecidableRel rowLE := fun a b =>
  inferInstanceAs (Decidable (_ ∨ _))

instance : IsTotal Row rowLE where
  total a b := by
    rcases lt_trichotomy a.Date b.Date with h | h | h
    · exact Or.inl (Or.inl h)
    · rcases le_total a.Frequency b.Frequency with hf | hf
      · exact Or.inl (Or.inr ⟨h, hf⟩)
      · exact Or.inr (Or.inr ⟨h.symm, hf⟩)
    · exact Or.inr (Or.inl h)

instance : IsTrans Row rowLE where
  trans a b c hab hbc := by
    rcases hab with h1 | ⟨h1, hf1⟩
    · rcases hbc with h2 | ⟨h2, _⟩
      · exact Or.inl (h1.trans h2)
      · exact Or.inl (h2 ▸ h1)
    · rcases hbc with h2 | ⟨h2, hf2⟩
      · exact Or.inl (h1 ▸ h2)
      · exact Or.inr ⟨h1.trans h2, hf1.trans hf2⟩

/-- Python `int()` applied to a rational value: truncation toward zero
(`n_toas = int((end_mjd - start_mjd) / X_days)`). -/
def int_trunc (q : ℚ) : ℤ :=
  if q < 0 then -⌊-q⌋ else ⌊q⌋

/-- `np.linspace(s, e, num)` with the default inclusive endpoint: `num`
evenly spaced samples from `s` to `e` (`[s]` when `num = 1`, empty when
`num = 0`). -/
def linspace (s e : ℚ) (num : ℕ) : List ℚ :=
  (List.range num).map fun i : ℕ =>
    if num ≤ 1 then s else s + (i : ℚ) * (e - s) / ((num - 1 : ℕ) : ℚ)

/-- A pandas data frame built from four equal-length columns
(`pd.DataFrame({'Date': ..., 'Residual': ..., 'Uncertainty': ...,
'Frequency': ...})`). -/
def mkSeries (dates residuals errs freqs : List ℚ) : List Row :=
  ((dates.zip residuals).zip (errs.zip freqs)).map fun p =>
    ⟨p.1.1, p.1.2, p.2.1, p.2.2⟩

/-- The synthetic pulsar object returned by the external library:
epochs, residuals, uncertainties and observing frequencies. -/
structure Psr where
  toas : List ℚ
  residuals : List ℚ
  toaerrs : List ℚ
  freqs : List ℚ
deriving DecidableEq

/-- Modelled from the spec: `libstempo.toasim.fakepulsar` is the external
synthetic-pulsar generator, out of scope of the repository and treated as
a black box ("given a timing model, observation epochs, cadence, and
noise parameters, it returns synthetic time-of-arrival residuals and
uncertainties").  The object echoes the supplied epochs, uncertainties
and frequencies; the whitened baseline residuals it synthesizes are an
arbitrary oracle `residGen`, one value per observation. -/
def fakepulsar (residGen : ℕ → ℚ) (obstimes toaerr freq : List ℚ) : Psr :=
  { toas := obstimes
    residuals := (List.range obstimes.length).map residGen
    toaerrs := toaerr
    freqs := freq }

/-- `ResidualSimulator.simulate_residuals_freq(X_days, freq, totaltime,
avg_sn)`: white noise at a single frequency.  The per-observation draw
`np.random.normal(loc=avg_sn, scale=5.0)` is modelled as
`avg_sn + 5 * xi i` for an arbitrary standard-normal oracle `xi`, and
`np.clip(_, a_min=1e-3, a_max=None)` as `max _ (1e-3)`.  `residGen` is
the baseline-residual oracle of the external generator.  (For a negative
epoch span the source would fail inside `np.linspace`; the model returns
the empty series there, which no claim depends on.) -/
def simulate_residuals_freq (xi residGen : ℕ → ℚ)
    (X_days freq totaltime avg_sn : ℚ) : List Row :=
  let start_mjd : ℚ := 56658
  let end_mjd : ℚ := start_mjd + 365.25 * totaltime
  let n_toas : ℕ := (int_trunc ((end_mjd - start_mjd) / X_days)).toNat
  let mjds : List ℚ := linspace start_mjd end_mjd n_toas
  let freqs : List ℚ := List.replicate n_toas freq
  let sn_ratios : List ℚ := (List.range n_toas).map fun i =>
    max (avg_sn + 5 * xi i) (1e-3)
  let toa_errors : List ℚ := sn_ratios.map fun s => 1 / s
  let psr : Psr := fakepulsar residGen mjds toa_errors freqs
  mkSeries psr.toas (psr.residuals.map fun r => r / 1e-6) psr.toaerrs psr.freqs

/-- `ResidualSimulator.combine_residuals(data_list)`: the `astype
(np.float64)` coercions are the identity on the rational model; then
`pd.concat` concatenates all rows and `sort_values(by=['Date',
'Frequency'])` sorts them (pandas uses a stable lexicographic sort for a
multi-column key, modelled by the stable `insertionSort`). -/
def combine_residuals (data_list : List (List Row)) : List Row :=
  List.insertionSort rowLE data_list.flatten

/-- Modelled from the spec: `lsim.add_rednoise(psr, amplitude, index)`
of the external library injects a power-law-correlated, frequency
-independent red-noise process into the residuals; the realization of
the process at each observation is an arbitrary oracle `sig`. -/
def add_rednoise (sig : ℕ → ℚ) (amplitude spectral_index : ℚ) (psr : Psr) : Psr :=
  { psr with residuals := psr.residuals.mapIdx fun i r => r + sig i }

/-- Modelled from the spec: `lsim.add_dm(psr, amplitude, index)` of the
external library injects a power-law-correlated dispersion-measure noise
process, scaling the injected delay by the inverse square of the
observing frequency; the underlying realization is the oracle `sig`. -/
def add_dm (sig : ℕ → ℚ) (amplitude spectral_index : ℚ) (psr : Psr) : Psr :=
  { psr with residuals :=
      (psr.residuals.zip psr.freqs).mapIdx fun i rf => rf.1 + sig i / rf.2 ^ 2 }

/-- Modelled from the spec: `lsim.add_efac(psr, efac=e)` of the external
library applies a global multiplicative scaling factor to the
measurement uncertainties. -/
def add_efac (efac : ℚ) (psr : Psr) : Psr :=
  { psr with toaerrs := psr.toaerrs.map fun u => efac * u }

/-- The random realizations drawn inside the two correlated-noise
injection routines. -/
structure NoiseEnv where
  redSig : ℕ → ℚ
  dmSig : ℕ → ℚ

/-- `ResidualSimulator.inject_dm_noise_on_combined(psr_combined,
dm_noise_params, red_noise_params, efac_value)`: applies red noise, then
DM noise, then EFAC to the combined pulsar object and returns the
mutated object together with its residuals and uncertainties. -/
def inject_dm_noise_on_combined (env : NoiseEnv) (psr_combined : Psr)
    (dm_noise_params red_noise_params : ℚ × ℚ) (efac_value : ℚ) :
    Psr × List ℚ × List ℚ :=
  let p1 := add_rednoise env.redSig red_noise_params.1 red_noise_params.2 psr_combined
  let p2 := add_dm env.dmSig dm_noise_params.1 dm_noise_params.2 p1
  let p3 := add_efac efac_value p2
  (p3, p3.residuals, p3.toaerrs)

/-- All random draws of one full simulation run: per-series S/N draws
and baseline residuals (indexed by the position of the observing
frequency in the requested list), the baseline residuals of the
re-synthesized combined pulsar, and the correlated-noise realizations. -/
structure SimEnv where
  xi : ℕ → ℕ → ℚ
  residGen : ℕ → ℕ → ℚ
  combinedResidGen : ℕ → ℚ
  noise : NoiseEnv

/-- The `all_data` list built by the loop
`for freq in observing_freqs: all_data.append(simulate_residuals_freq(...))`,
with fresh random draws on every iteration. -/
def all_series (env : SimEnv) (cadence_days : ℚ) (observing_freqs : List ℚ)
    (totaltime avg_sn : ℚ) : List (List Row) :=
  ((List.range observing_freqs.length).zip observing_freqs).map fun jf =>
    simulate_residuals_freq (env.xi jf.1) (env.residGen jf.1)
      cadence_days jf.2 totaltime avg_sn

/-- The merged pre-injection series `combined_data =
combine_residuals(all_data)`. -/
def mergedSeries (env : SimEnv) (cadence_days : ℚ) (observing_freqs : List ℚ)
    (totaltime avg_sn : ℚ) : List Row :=
  combine_residuals (all_series env cadence_days observing_freqs totaltime avg_sn)

/-- The in-place overwrite of the `Residual` and `Uncertainty` columns
(`combined_data['Residual'] = ...; combined_data['Uncertainty'] = ...`);
the `Date` and `Frequency` columns are untouched. -/
def setResUnc (rows : List Row) (res errs : List ℚ) : List Row :=
  (rows.zip (res.zip errs)).map fun p =>
    { p.1 with Residual := p.2.1, Uncertainty := p.2.2 }

/-- `ResidualSimulator.simulate_residuals(cadence_days, observing_freqs,
red_noise_params, dm_noise_params, totaltime, efac_value)`: per-frequency
synthesis, merge, re-synthesis of a single combined pulsar object from
the merged columns, noise injection, and overwrite of the residual and
uncertainty columns (with the seconds-to-microseconds rescaling).
`avg_sn` is read from the enclosing scope in the source and is an
explicit argument here. -/
def simulate_residuals (env : SimEnv) (cadence_days : ℚ)
    (observing_freqs : List ℚ) (red_noise_params dm_noise_params : ℚ × ℚ)
    (totaltime efac_value avg_sn : ℚ) : List Row :=
  let combined_data := mergedSeries env cadence_days observing_freqs totaltime avg_sn
  let psr_combined := fakepulsar env.combinedResidGen
    (combined_data.map Row.Date) (combined_data.map Row.Uncertainty)
    (combined_data.map Row.Frequency)
  let out := inject_dm_noise_on_combined env.noise psr_combined
    dm_noise_params red_noise_params efac_value
  setResUnc combined_data (out.2.1.map fun r => r / 1e-6) out.2.2

/-- The five per-run artifact files of the export block of the "Run
Simulation" action (each carries the run-unique uid suffix). -/
inductive Artifact
  | par
  | tim
  | plot
  | summary
  | zip
deriving DecidableEq, Repr

/-- Outcome of the export block: which artifact files are on disk when
the block finishes, whether the user-visible error was reported, and
whether the block aborted with an uncaught exception. -/
structure ExportState where
  files : List Artifact
  errorShown : Bool
  crashed : Bool
deriving DecidableEq, Repr

/-- The export portion of the "Run Simulation" block, as a function of
whether `simulator.psr_combined` is available.  Statement order follows
the source: `fig.savefig` writes the plot; `savepar`/`savetim` run only
under the `is not None` check, with `st.error` otherwise; the summary
file is written unconditionally; `zipfile.ZipFile(_, 'w')` creates the
archive on open; each `zipf.write` of a missing member raises
`FileNotFoundError`, aborting the block; on success the download is
served and `os.remove` deletes the four loose files and the archive. -/
def export_run (psr_available : Bool) : ExportState :=
  let files0 : List Artifact := [Artifact.plot]
  let files1 := if psr_available then files0 ++ [Artifact.par, Artifact.tim] else files0
  let err := !psr_available
  let files2 := files1 ++ [Artifact.summary]
  let files3 := files2 ++ [Artifact.zip]
  if Artifact.par ∈ files3 ∧ Artifact.tim ∈ files3 ∧
      Artifact.plot ∈ files3 ∧ Artifact.summary ∈ files3 then
    { files := ((((files3.erase Artifact.par).erase Artifact.tim).erase
        Artifact.plot).erase Artifact.summary).erase Artifact.zip
      errorShown := err
      crashed := false }
  else
    { files := files3, errorShown := err, crashed := true }

/-- One entry of an element's `parameters` list in the generated JSON
configuration.  The optional `description` appears only in the
EFAC/EQUAD branch of `src/JSON/TempoNest_JSON.py`; the optional `flag`
only in its Per Flag branch.  The JSON key `include` is the Lean field
`include_`. -/
structure TNParameter where
  name : String
  description : Option String
  prior_type : String
  include_ : Bool
  fit : Bool
  min_value : ℚ
  max_value : ℚ
  flag : Option String
deriving DecidableEq

/-- One entry of the `elements` list of the generated configuration. -/
structure Element where
  name : String
  parameters : List TNParameter
deriving DecidableEq

/-- The `RECOMMENDED_VALUES` catalog (identical in both entry points):
per element, the ordered sub-parameter names with their recommended
(min_value, max_value) bounds. -/
def RECOMMENDED_VALUES : List (String × List (String × ℚ × ℚ)) :=
  [("Power Law Red Noise", [("amplitude", (-18, -10)), ("spectral_index", (0, 7))]),
   ("Power Law DM Noise", [("amplitude", (-18, -10)), ("spectral_index", (0, 7))]),
   ("EFAC", [("global", (-1, 0.7)), ("per_flag", (-1, 0.7))]),
   ("EQUAD", [("global", (-9, -3)), ("per_flag", (-9, -3))])]

/-- The catalog row for one element name: `RECOMMENDED_VALUES
[element_name].items()`, empty when the element is not in the catalog
(the `if element_name in RECOMMENDED_VALUES` guard). -/
def recommended_params (element_name : String) : List (String × ℚ × ℚ) :=
  (RECOMMENDED_VALUES.lookup element_name).getD []

/-- The parameter-assembly loop of `src/TempoNest_JSON.py` (lines
64-86): one parameter per catalog sub-key, prior `log_uniform` for
`amplitude`/`global`/`per_flag` and `uniform` otherwise; `include`,
`fit` and the bounds come from the per-sub-key form widgets, modelled as
override functions (their widget defaults are `True`, `True` and the
catalog bounds). -/
def build_parameters_v1 (element_name : String) (inc fit : String → Bool)
    (minv maxv : String → ℚ) : List TNParameter :=
  (recommended_params element_name).map fun p =>
    { name := p.1
      description := none
      prior_type :=
        if p.1 = "amplitude" ∨ p.1 = "global" ∨ p.1 = "per_flag"
        then "log_uniform" else "uniform"
      include_ := inc p.1
      fit := fit p.1
      min_value := minv p.1
      max_value := maxv p.1
      flag := none }

/-- `elements.append({"name": element_name, "parameters": parameters})`
in `src/TempoNest_JSON.py`. -/
def build_element_v1 (element_name : String) (inc fit : String → Bool)
    (minv maxv : String → ℚ) : Element :=
  ⟨element_name, build_parameters_v1 element_name inc fit minv maxv⟩

/-- The two options of the `st.radio("Select Model Type for ...",
("Global", "Per Flag"))` widget in `src/JSON/TempoNest_JSON.py`. -/
inductive ModelType
  | Global
  | PerFlag
deriving DecidableEq

/-- Python `str.lower()` on the element name (used in the description
f-strings of the EFAC/EQUAD branches). -/
def strLower (s : String) : String :=
  ⟨s.data.map Char.toLower⟩

/-- The parameter-assembly loop of `src/JSON/TempoNest_JSON.py` (lines
64-130).  For EFAC/EQUAD the user picks exactly one of the Global / Per
Flag modes; each emits a single parameter with the user-entered bounds
(`min_value`, `max_value`), prior `uniform` for EFAC and `log_uniform`
for EQUAD, and — in Per Flag mode — the user-entered flag string.  Every
other element falls to the catalog loop, which is textually identical to
the one in `src/TempoNest_JSON.py` (`build_parameters_v1`). -/
def build_parameters_v2 (element_name : String) (selected_model : ModelType)
    (min_value max_value : ℚ) (flag : String) (inc fit : String → Bool)
    (minv maxv : String → ℚ) : List TNParameter :=
  if element_name = "EFAC" ∨ element_name = "EQUAD" then
    match selected_model with
    | ModelType.Global =>
      [{ name := "global"
         description := some ("global scaling for " ++ strLower element_name ++ " error bars")
         prior_type := if element_name = "EFAC" then "uniform" else "log_uniform"
         include_ := true
         fit := true
         min_value := min_value
         max_value := max_value
         flag := none }]
    | ModelType.PerFlag =>
      [{ name := "per_flag"
         description := some ("per flag model for " ++ strLower element_name ++ " error bars")
         prior_type := if element_name = "EFAC" then "uniform" else "log_uniform"
         include_ := true
         fit := true
         min_value := min_value
         max_value := max_value
         flag := some flag }]
  else
    build_parameters_v1 element_name inc fit minv maxv

/-- `elements.append({"name": element_name, "parameters": parameters})`
in `src/JSON/TempoNest_JSON.py`. -/
def build_element_v2 (element_name : String) (selected_model : ModelType)
    (min_value max_value : ℚ) (flag : String) (inc fit : String → Bool)
    (minv maxv : String → ℚ) : Element :=
  ⟨element_name,
    build_parameters_v2 element_name selected_model min_value max_value flag inc fit minv maxv⟩

/-- The default of the `st.text_input("Flag for ...", value="-fe")`
widget in the Per Flag branch. -/
def default_per_flag_flag : String := "-fe"

/-- A concrete zero draw oracle used to exercise the theorems on
concrete inputs. -/
def zeroDraw : ℕ → ℚ := fun _ => 0

/-- A concrete sample row (epoch 2, frequency 800). -/
def rowA : Row := ⟨2, 0, 1, 800⟩

/-- A concrete sample row (epoch 1, frequency 1400). -/
def rowB : Row := ⟨1, 0, 1, 1400⟩

/-- Concrete widget-override functions for exercising the config
builders: include/fit everywhere, zero bounds. -/
def incAll : String → Bool := fun _ => true

/-- Concrete widget-override function: zero bound for every
sub-parameter name. -/
def boundZero : String → ℚ := fun _ => 0

/-! ## Supporting lemmas -/

theorem int_trunc_of_nonneg {q : ℚ} (h : 0 ≤ q) : int_trunc q = ⌊q⌋ := by
  simp [int_trunc, not_lt.mpr h]

theorem length_linspace (s e : ℚ) (num : ℕ) : (linspace s e num).length = num := by
  unfold linspace
  rw [List.length_map, List.length_range]

theorem length_simulate_residuals_freq (xi rg : ℕ → ℚ) (X f t s : ℚ) :
    (simulate_residuals_freq xi rg X f t s).length
      = (int_trunc ((56658 + 365.25 * t - 56658) / X)).toNat := by
  simp [simulate_residuals_freq, mkSeries, fakepulsar, length_linspace]

theorem mem_mkSeries_uncertainty {r : Row} {d res e f : List ℚ}
    (h : r ∈ mkSeries d res e f) : r.Uncertainty ∈ e := by
  obtain ⟨p, hp, rfl⟩ := List.mem_map.mp h
  exact (List.of_mem_zip ((List.of_mem_zip hp).2)).1

theorem uncertainty_shape {r : Row} {xi rg : ℕ → ℚ} {X f t s : ℚ}
    (h : r ∈ simulate_residuals_freq xi rg X f t s) :
    ∃ i : ℕ, r.Uncertainty = 1 / max (s + 5 * xi i) (1e-3) := by
  have hu := mem_mkSeries_uncertainty h
  simp only [simulate_residuals_freq, fakepulsar, List.map_map, List.mem_map,
    List.mem_range, Function.comp] at hu
  obtain ⟨i, _, hx⟩ := hu
  exact ⟨i, hx.symm⟩

theorem one_div_max_pos (x : ℚ) : 0 < 1 / max x (1e-3) := by
  have h3 : (0 : ℚ) < 1e-3 := by norm_num
  exact one_div_pos.mpr (lt_of_lt_of_le h3 (le_max_right _ _))

theorem one_div_max_le (x : ℚ) : 1 / max x (1e-3) ≤ 1000 := by
  have h3 : (0 : ℚ) < 1e-3 := by norm_num
  have h := one_div_le_one_div_of_le h3 (le_max_right x (1e-3))
  calc 1 / max x (1e-3) ≤ 1 / (1e-3 : ℚ) := h
    _ = 1000 := by norm_num

theorem freq_series_single :
    simulate_residuals_freq zeroDraw zeroDraw 365 1400 1 (-5)
      = [⟨56658, 0, 1000, 1400⟩] := by
  have hq : ((56658 : ℚ) + 365.25 * 1 - 56658) / 365 = 1461 / 1460 := by norm_num
  have hint : int_trunc ((1461 : ℚ) / 1460) = 1 := by
    rw [int_trunc_of_nonneg (by norm_num)]
    norm_num
  simp only [simulate_residuals_freq, hq, hint]
  norm_num [linspace, mkSeries, fakepulsar, zeroDraw, List.range_succ,
    List.range_zero, Function.comp]

/-! ## Claims -/

/-- C5: for every call to the noise injector, the three noise operations
are applied to the combined pulsar object in this fixed order: first the
power-law red-noise process, then the power-law dispersion-measure noise
process (frequency-dependent), then the multiplicative EFAC scaling of
the measurement uncertainties (the returned uncertainties are the EFAC
multiples of the input uncertainties, which the first two operations do
not touch, and the returned residuals are those produced by red noise
followed by DM noise, which the EFAC step does not touch). -/
theorem inject_order_claim (env : NoiseEnv) (psr : Psr) (dmp redp : ℚ × ℚ)
    (efac : ℚ) :
    (inject_dm_noise_on_combined env psr dmp redp efac).1
      = add_efac efac (add_dm env.dmSig dmp.1 dmp.2
          (add_rednoise env.redSig redp.1 redp.2 psr))
    ∧ (inject_dm_noise_on_combined env psr dmp redp efac).2.2
      = psr.toaerrs.map (fun u => efac * u)
    ∧ (inject_dm_noise_on_combined env psr dmp redp efac).2.1
      = (add_dm env.dmSig dmp.1 dmp.2
          (add_rednoise env.redSig redp.1 redp.2 psr)).residuals :=
  ⟨rfl, rfl, rfl⟩

/-- C4 counterexample: with no pulsar object available, the export block
does report the error, but it still performs file operations — at least
the plot image is written (so "performs no file operations" fails). -/
theorem export_no_psr_counterexample :
    (export_run false).errorShown = true ∧ (export_run false).files ≠ [] := by
  decide

/-- C4 (amended): if no pulsar object has been produced when export is
requested, a user-visible error is reported and the parameter and
time-of-arrival files are not written, but the plot image and the
summary file are written, the (empty) archive is created, and the block
then aborts when archiving the missing parameter file, leaving those
three files on disk. -/
theorem export_no_psr_claim :
    export_run false =
      { files := [Artifact.plot, Artifact.summary, Artifact.zip]
        errorShown := true
        crashed := true }
    ∧ Artifact.par ∉ (export_run false).files
    ∧ Artifact.tim ∉ (export_run false).files := by
  decide

/-- C7 counterexample: after a successful export the archive does not
remain in the working directory — the final cleanup deletes it too. -/
theorem export_cleanup_counterexample :
    Artifact.zip ∉ (export_run true).files := by
  decide

/-- C7 (amended): after a successful export, the per-run loose artifact
files and the archive are all deleted; no per-run file remains in the
working directory (the archive bytes are served to the download from
memory before the deletion). -/
theorem export_cleanup_claim :
    export_run true = { files := [], errorShown := false, crashed := false } := by
  decide

/-- C8: for every element whose selected name is "Timing Model", both
config-builder entry points attach an empty parameters sequence to the
emitted Element. -/
theorem timing_model_empty_claim (inc fit : String → Bool)
    (minv maxv : String → ℚ) (mode : ModelType) (a b : ℚ) (fl : String) :
    (build_element_v1 "Timing Model" inc fit minv maxv).parameters = []
    ∧ (build_element_v2 "Timing Model" mode a b fl inc fit minv maxv).parameters = [] := by
  have hrec : recommended_params "Timing Model" = [] := by decide
  have hne : ¬("Timing Model" = "EFAC" ∨ "Timing Model" = "EQUAD") := by decide
  refine ⟨?_, ?_⟩
  · simp [build_element_v1, build_parameters_v1, hrec]
  · simp [build_element_v2, build_parameters_v2, build_parameters_v1, hrec, hne]

/-- C2: for every call to the per-frequency synthesizer with positive
cadence and duration, the produced series has exactly
floor((end_epoch - start_epoch) / cadence_days) rows, where
end_epoch - start_epoch = 365.25 * duration_years, and every uncertainty
value in the series is strictly positive (the drawn signal-to-noise
ratio is floored at 1e-3 before taking its reciprocal). -/
theorem synthesize_claim (xi rg : ℕ → ℚ) (X_days freq totaltime avg_sn : ℚ)
    (hX : 0 < X_days) (ht : 0 < totaltime) :
    ((simulate_residuals_freq xi rg X_days freq totaltime avg_sn).length : ℤ)
      = ⌊365.25 * totaltime / X_days⌋
    ∧ ∀ r ∈ simulate_residuals_freq xi rg X_days freq totaltime avg_sn,
        0 < r.Uncertainty := by
  have hspan : (56658 : ℚ) + 365.25 * totaltime - 56658 = 365.25 * totaltime := by
    ring
  have hq : (0 : ℚ) ≤ 365.25 * totaltime / X_days :=
    div_nonneg (mul_nonneg (by norm_num) ht.le) hX.le
  constructor
  · rw [length_simulate_residuals_freq, hspan, int_trunc_of_nonneg hq]
    exact Int.toNat_of_nonneg (Int.floor_nonneg.mpr hq)
  · intro r hr
    obtain ⟨i, hu⟩ := uncertainty_shape hr
    rw [hu]
    exact one_div_max_pos _

theorem synthesize_claim_witness :
    ((simulate_residuals_freq zeroDraw zeroDraw 10 1400 1 20).length : ℤ)
      = ⌊(365.25 : ℚ) * 1 / 10⌋ :=
  (synthesize_claim zeroDraw zeroDraw 10 1400 1 20 (by norm_num) (by norm_num)).1

/-- C10: every uncertainty produced by the per-frequency synthesizer is
strictly positive and bounded above by 1000 (the reciprocal of the 1e-3
signal-to-noise floor), for every realization of the draws and hence in
particular for zero or negative requested mean signal-to-noise; no
division by a non-positive drawn signal-to-noise ratio can occur. -/
theorem uncertainty_bounds_claim (xi rg : ℕ → ℚ) (X_days freq totaltime avg_sn : ℚ)
    (r : Row) (hr : r ∈ simulate_residuals_freq xi rg X_days freq totaltime avg_sn) :
    0 < r.Uncertainty ∧ r.Uncertainty ≤ 1000 := by
  obtain ⟨i, hu⟩ := uncertainty_shape hr
  rw [hu]
  exact ⟨one_div_max_pos _, one_div_max_le _⟩

theorem uncertainty_bounds_claim_witness :
    0 < (Row.mk 56658 0 1000 1400).Uncertainty
    ∧ (Row.mk 56658 0 1000 1400).Uncertainty ≤ 1000 :=
  uncertainty_bounds_claim zeroDraw zeroDraw 365 1400 1 (-5) _
    (by rw [freq_series_single]; exact List.mem_singleton_self _)

/-- C1: for every list of input TOA series, combine produces exactly the
multiset union of the input rows (no row filtered or added), the output
is non-decreasing in (epoch, frequency), and the row content of the
output is the same (as a multiset) regardless of the order in which the
input series are supplied. -/
theorem combine_claim (L1 L2 : List (List Row)) (h : L1.Perm L2) :
    (↑(combine_residuals L1) : Multiset Row) = ↑L1.flatten
    ∧ List.Sorted rowLE (combine_residuals L1)
    ∧ (↑(combine_residuals L1) : Multiset Row) = ↑(combine_residuals L2) := by
  refine ⟨Multiset.coe_eq_coe.mpr (List.perm_insertionSort rowLE L1.flatten),
    List.sorted_insertionSort rowLE L1.flatten, Multiset.coe_eq_coe.mpr ?_⟩
  exact (List.perm_insertionSort rowLE L1.flatten).trans
    ((h.flatten).trans (List.perm_insertionSort rowLE L2.flatten).symm)

theorem combine_claim_witness :
    (↑(combine_residuals [[rowA], [rowB]]) : Multiset Row)
      = ↑(combine_residuals [[rowB], [rowA]]) :=
  (combine_claim [[rowA], [rowB]] [[rowB], [rowA]] (by decide)).2.2

/-- C9: sorting by (epoch ascending, frequency ascending) is idempotent
on the output of combine: running combine on an already-combined series,
or re-applying the combine sort to it, returns it unchanged. -/
theorem combine_sort_idempotent_claim (L : List (List Row)) :
    combine_residuals [combine_residuals L] = combine_residuals L
    ∧ List.insertionSort rowLE (combine_residuals L) = combine_residuals L := by
  have hs : List.Sorted rowLE (combine_residuals L) :=
    List.sorted_insertionSort rowLE L.flatten
  have h2 : List.insertionSort rowLE (combine_residuals L) = combine_residuals L :=
    hs.insertionSort_eq
  refine ⟨?_, h2⟩
  show List.insertionSort rowLE ([combine_residuals L].flatten) = combine_residuals L
  rw [show ([combine_residuals L] : List (List Row)).flatten = combine_residuals L by simp]
  exact h2

/-- C3: for an EFAC element in Global mode with default bounds, the
config builder emits exactly one Parameter, named "global", with
prior_type "uniform", min_value -1 and max_value 0.7; Global mode on
EFAC/EQUAD emits one Parameter named "global" with prior uniform for
EFAC and log-uniform for EQUAD, and Per-Flag mode emits one Parameter
named "per_flag" with the same prior-type rule plus a flag string whose
widget default is "-fe". -/
theorem efac_equad_modes_claim (e : String) (he : e = "EFAC" ∨ e = "EQUAD")
    (a b : ℚ) (fl : String) (inc fit : String → Bool) (minv maxv : String → ℚ) :
    build_parameters_v2 "EFAC" ModelType.Global (-1) 0.7 fl inc fit minv maxv
      = [{ name := "global"
           description := some "global scaling for efac error bars"
           prior_type := "uniform"
           include_ := true
           fit := true
           min_value := -1
           max_value := 0.7
           flag := none }]
    ∧ (recommended_params "EFAC").lookup "global" = some (-1, 0.7)
    ∧ (build_parameters_v2 e ModelType.Global a b fl inc fit minv maxv).length = 1
    ∧ (∀ p ∈ build_parameters_v2 e ModelType.Global a b fl inc fit minv maxv,
        p.name = "global"
        ∧ p.prior_type = (if e = "EFAC" then "uniform" else "log_uniform")
        ∧ p.min_value = a ∧ p.max_value = b ∧ p.flag = none)
    ∧ (build_parameters_v2 e ModelType.PerFlag a b fl inc fit minv maxv).length = 1
    ∧ (∀ p ∈ build_parameters_v2 e ModelType.PerFlag a b fl inc fit minv maxv,
        p.name = "per_flag"
        ∧ p.prior_type = (if e = "EFAC" then "uniform" else "log_uniform")
        ∧ p.min_value = a ∧ p.max_value = b ∧ p.flag = some fl)
    ∧ default_per_flag_flag = "-fe" := by
  have hlow : strLower "EFAC" = "efac" := by decide
  refine ⟨?_, ?_, ?_, ?_, ?_, ?_, rfl⟩
  · simp [build_parameters_v2, hlow]
  · rfl
  · rcases he with rfl | rfl <;> simp [build_parameters_v2]
  · rcases he with rfl | rfl <;>
      (intro p hp; simp [build_parameters_v2] at hp; subst hp; simp)
  · rcases he with rfl | rfl <;> simp [build_parameters_v2]
  · rcases he with rfl | rfl <;>
      (intro p hp; simp [build_parameters_v2] at hp; subst hp; simp)

theorem efac_equad_modes_claim_witness :
    (build_parameters_v2 "EQUAD" ModelType.Global (-9) (-3)
      default_per_flag_flag incAll incAll boundZero boundZero).length = 1 :=
  (efac_equad_modes_claim "EQUAD" (Or.inr rfl) (-9) (-3)
    default_per_flag_flag incAll incAll boundZero boundZero).2.2.1

theorem setResUnc_length (rows : List Row) (res errs : List ℚ) :
    (setResUnc rows res errs).length = min rows.length (min res.length errs.length) := by
  simp [setResUnc, List.length_zip]

theorem setResUnc_map_of_len (f : Row → ℚ)
    (hf : ∀ (row : Row) (x y : ℚ), f { row with Residual := x, Uncertainty := y } = f row) :
    ∀ (rows : List Row) (res errs : List ℚ),
      rows.length ≤ res.length → rows.length ≤ errs.length →
      (setResUnc rows res errs).map f = rows.map f := by
  intro rows
  induction rows with
  | nil => intro res errs _ _; simp [setResUnc]
  | cons r rs ih =>
    intro res errs h1 h2
    cases res with
    | nil => simp at h1
    | cons x xs =>
      cases errs with
      | nil => simp at h2
      | cons y ys =>
        have h1' : rs.length ≤ xs.length := by simpa using h1
        have h2' : rs.length ≤ ys.length := by simpa using h2
        show f { r with Residual := x, Uncertainty := y } :: (setResUnc rs xs ys).map f
          = f r :: rs.map f
        rw [hf, ih xs ys h1' h2']

theorem length_out1 (env : NoiseEnv) (psr : Psr) (dmp redp : ℚ × ℚ) (efac : ℚ) :
    (inject_dm_noise_on_combined env psr dmp redp efac).2.1.length
      = min psr.residuals.length psr.freqs.length := by
  simp [inject_dm_noise_on_combined, add_efac, add_dm, add_rednoise,
    List.length_mapIdx, List.length_zip]

theorem length_out2 (env : NoiseEnv) (psr : Psr) (dmp redp : ℚ × ℚ) (efac : ℚ) :
    (inject_dm_noise_on_combined env psr dmp redp efac).2.2.length
      = psr.toaerrs.length := by
  simp [inject_dm_noise_on_combined, add_efac, add_dm, add_rednoise]

theorem length_combine (L : List (List Row)) :
    (combine_residuals L).length = L.flatten.length :=
  (List.perm_insertionSort rowLE L.flatten).length_eq

theorem length_simulate_residuals (env : SimEnv) (c : ℚ) (fs : List ℚ)
    (rp dp : ℚ × ℚ) (t e s : ℚ) :
    (simulate_residuals env c fs rp dp t e s).length
      = (mergedSeries env c fs t s).length := by
  simp only [simulate_residuals]
  rw [setResUnc_length, List.length_map, length_out1, length_out2]
  simp [fakepulsar]

theorem simulate_map_col (env : SimEnv) (c : ℚ) (fs : List ℚ)
    (rp dp : ℚ × ℚ) (t e s : ℚ) (f : Row → ℚ)
    (hf : ∀ (row : Row) (x y : ℚ), f { row with Residual := x, Uncertainty := y } = f row) :
    (simulate_residuals env c fs rp dp t e s).map f
      = (mergedSeries env c fs t s).map f := by
  simp only [simulate_residuals]
  apply setResUnc_map_of_len f hf
  · rw [List.length_map, length_out1]
    simp [fakepulsar]
  · rw [length_out2]
    simp [fakepulsar]

/-- C6: noise injection changes only the residual and uncertainty
columns of the combined series: the post-injection combined series has
the same number of rows, the same epoch values, and the same frequency
values as the pre-injection merged series; and in the example scenario
(cadence 10 days, frequencies [800, 1400] MHz, duration 1 year) the
post-injection combined series has 72 rows (two 36-row per-frequency
series). -/
theorem injection_frame_claim (env : SimEnv) (cadence : ℚ) (obs_freqs : List ℚ)
    (rp dp : ℚ × ℚ) (t efac sn : ℚ) :
    (simulate_residuals env cadence obs_freqs rp dp t efac sn).length
      = (mergedSeries env cadence obs_freqs t sn).length
    ∧ (simulate_residuals env cadence obs_freqs rp dp t efac sn).map Row.Date
      = (mergedSeries env cadence obs_freqs t sn).map Row.Date
    ∧ (simulate_residuals env cadence obs_freqs rp dp t efac sn).map Row.Frequency
      = (mergedSeries env cadence obs_freqs t sn).map Row.Frequency
    ∧ (simulate_residuals env 10 [800, 1400] rp dp 1 efac sn).length = 72 := by
  refine ⟨length_simulate_residuals env cadence obs_freqs rp dp t efac sn,
    simulate_map_col env cadence obs_freqs rp dp t efac sn Row.Date (fun _ _ _ => rfl),
    simulate_map_col env cadence obs_freqs rp dp t efac sn Row.Frequency (fun _ _ _ => rfl),
    ?_⟩
  rw [length_simulate_residuals]
  have h36 : (int_trunc ((365.25 : ℚ) / 10)).toNat = 36 := by
    rw [show (365.25 : ℚ) / 10 = 1461 / 40 by norm_num,
      int_trunc_of_nonneg (by norm_num)]
    norm_num
    rfl
  simp [mergedSeries, length_combine, all_series, length_simulate_residuals_freq,
    h36, List.range_succ]
